import Mathlib

/-!
Shallow embedding of the three DMX/RDM transport drivers
(`dmx-rdm-enttec-pro`, `dmx-rdm-ftdi`, `dmx-rdm-rp2040`) and proofs of the
specification claims about them.

Bytes are modelled as `Nat` (with explicit `% 256` / `% 65536` where the Rust
code performs integer casts).  Fallible Rust code is modelled with `Option` /
explicit result types; a Rust panic is modelled as a distinguished `panicked`
result, and a blocking loop whose input trace runs out is modelled as `stuck`.
Interactions with the serial port / UART hardware are modelled as traces of
observed read outcomes which the loop bodies consume.
-/

namespace DmxDrivers

/-! ## Constants from `dmx-rdm-enttec-pro/src/lib.rs` -/

def START_OF_MESSAGE_DELIMITER : Nat := 0x7E

def END_OF_MESSAGE_DELIMITER : Nat := 0xE7

def MAX_DATA_LENGTH : Nat := 600

def MIN_PACKAGE_SIZE : Nat := 5

def RECEIVED_DMX_PACKET : Nat := 5

def SEND_DMX_PACKET_REQUEST : Nat := 6

def SEND_RDM_PACKET_REQUEST : Nat := 7

def GET_WIDGET_SERIAL_NUMBER : Nat := 10

def SEND_RDM_DISCOVERY_REQUEST : Nat := 11

/-- Modelled from the spec: the DMX null start code `DMX_NULL_START` comes from
the external `dmx-rdm` crate (outside this repository); the spec's wire example
`7E 06 04 00 00 00 01 02 E7` fixes it to `0x00`. -/
def DMX_NULL_START : Nat := 0

/-! ## `EnttecMessage` (container framing) -/

/-- The Enttec widget message: a label byte and a 0–600 byte payload
(`struct EnttecMessage` in `dmx-rdm-enttec-pro/src/lib.rs`). -/
structure EnttecMessage where
  label : Nat
  data : List Nat
deriving DecidableEq, Repr

/-- Embedding of `EnttecMessage::serialize`.  The Rust code `assert!`s that the
payload is at most 600 bytes (a panic, modelled as `none`), then emits
`0x7E, label, len_lo, len_hi, data…, 0xE7` with the length cast to `u16`
little-endian. -/
def EnttecMessage.serialize (m : EnttecMessage) : Option (List Nat) :=
  if m.data.length > MAX_DATA_LENGTH then
    none
  else
    let len16 := m.data.length % 65536
    some ([START_OF_MESSAGE_DELIMITER, m.label, len16 % 256, len16 / 256]
      ++ m.data ++ [END_OF_MESSAGE_DELIMITER])

/-- The little-endian 16-bit length field declared at offsets 2 and 3 of a
received buffer (`u16::from_le_bytes(data[2..4])` in `deserialize`). -/
def declaredLength (data : List Nat) : Nat :=
  data.getD 2 0 + 256 * data.getD 3 0

/-- Embedding of `EnttecMessage::deserialize`.  Returns `none` (Rust `None`,
a no-match) unless the buffer is at least 5 bytes, starts with `0x7E`, ends
with `0xE7`, declares a length of at most 600, and has exactly
`declared + 5` bytes. -/
def EnttecMessage.deserialize (data : List Nat) : Option EnttecMessage :=
  if data.length < MIN_PACKAGE_SIZE then
    none
  else if data.getD 0 0 ≠ START_OF_MESSAGE_DELIMITER
      ∨ data.getD (data.length - 1) 0 ≠ END_OF_MESSAGE_DELIMITER then
    none
  else
    let label := data.getD 1 0
    let data_length := declaredLength data
    if data_length > MAX_DATA_LENGTH ∨ data.length ≠ MIN_PACKAGE_SIZE + data_length then
      none
    else
      some { label := label, data := (data.drop 4).take data_length }

example : EnttecMessage.serialize { label := 6, data := [0, 0, 1, 2] } =
    some [0x7E, 6, 4, 0, 0, 0, 1, 2, 0xE7] := by decide

example : EnttecMessage.deserialize [0x7E, 6, 4, 0, 0, 0, 1, 2, 0xE7] =
    some { label := 6, data := [0, 0, 1, 2] } := by decide

example : EnttecMessage.deserialize [0x7E, 5, 0, 0, 0xE7] =
    some { label := 5, data := [] } := by decide

example : EnttecMessage.deserialize [0x7E, 5, 0, 0] = none := by decide

/-! ## Error and result types of the Enttec Pro driver -/

/-- Embedding of `EnttecProError`.  The two `FtdiError` payload shapes that the
driver distinguishes (`TimeoutError::Timeout` vs. a wrapped `FtStatus`) are
modelled as two constructors. -/
inductive EnttecProError where
  | lengthOutOfRange
  | enttecDeserializationError
  | rdmDeserializationError
  | ftdiTimeout
  | ftdiStatus
deriving DecidableEq, Repr

/-- Embedding of `dmx_rdm::dmx_driver::DiscoveryOption`; the responder UID is
abstracted to a `Nat`. -/
inductive DiscoveryOption where
  | noDevice
  | found (uid : Nat)
  | collision
deriving DecidableEq, Repr

/-- Abstraction of `dmx_rdm::rdm_data::RdmData` (external crate): the driver
only inspects whether the package is a `Request` and what its `parameter_id`
is, so only those are modelled. -/
inductive RdmData where
  | request (parameter_id : Nat)
  | response
deriving DecidableEq, Repr

/-- Outcome of running a driver operation on a finite trace of transport
events: a returned value, a returned typed error, a Rust panic, or a loop that
is still waiting for input when the trace runs out. -/
inductive ExecResult (α : Type) where
  | ok (value : α)
  | err (e : EnttecProError)
  | panicked
  | stuck
deriving DecidableEq, Repr

/-! ## Enttec Pro driver operations

The driver's receive loops call `read_package` repeatedly; we model the
transport as the trace (list) of `read_package` outcomes the loop consumes. -/

/-- Embedding of `EnttecProDriver::receive_rdm`: loop reading packages until
one with label 5 arrives (errors propagate via `?`), then deserialize the RDM
payload from `package.data[1..]`.  The Rust slice `data[1..]` panics when
`data` is empty (start index 1 exceeds length 0), modelled by `panicked`.
`rdmParse` abstracts the external `RdmData::deserialize`. -/
def EnttecProDriver.receive_rdm (rdmParse : List Nat → Option RdmData) :
    List (Except EnttecProError EnttecMessage) → ExecResult RdmData
  | [] => .stuck
  | (Except.error e) :: _ => .err e
  | (Except.ok msg) :: rest =>
    if msg.label = RECEIVED_DMX_PACKET then
      if 1 ≤ msg.data.length then
        match rdmParse (msg.data.drop 1) with
        | some d => .ok d
        | none => .err .rdmDeserializationError
      else .panicked
    else EnttecProDriver.receive_rdm rdmParse rest

/-- Embedding of `EnttecProDriver::receive_rdm_discovery_response`: a
`TimeoutError::Timeout` from `read_package` returns `Ok(NoDevice)`, any other
error propagates; a label-5 package ends the loop and its payload
`package.data[1..]` (panics when `data` is empty) is fed to the external
`deserialize_discovery_response`, abstracted as `parse`: success is `Found`,
failure is `Collision`. -/
def EnttecProDriver.receive_rdm_discovery_response (parse : List Nat → Option Nat) :
    List (Except EnttecProError EnttecMessage) → ExecResult DiscoveryOption
  | [] => .stuck
  | (Except.error e) :: _ =>
    match e with
    | .ftdiTimeout => .ok .noDevice
    | other => .err other
  | (Except.ok msg) :: rest =>
    if msg.label = RECEIVED_DMX_PACKET then
      if 1 ≤ msg.data.length then
        match parse (msg.data.drop 1) with
        | some uid => .ok (.found uid)
        | none => .ok .collision
      else .panicked
    else EnttecProDriver.receive_rdm_discovery_response parse rest

/-- The label selected by `EnttecProDriver::send_rdm`: label 11 for an RDM
request with `parameter_id == 0x0001`, label 7 otherwise. -/
def EnttecProDriver.send_rdm_label (package : RdmData) : Nat :=
  match package with
  | .request pid =>
    if pid = 0x0001 then SEND_RDM_DISCOVERY_REQUEST else SEND_RDM_PACKET_REQUEST
  | .response => SEND_RDM_PACKET_REQUEST

/-- The `EnttecMessage` that `send_rdm` writes to the serial port, with the
external RDM serializer abstracted as `serialize_rdm`. -/
def EnttecProDriver.send_rdm_message (serialize_rdm : RdmData → List Nat)
    (package : RdmData) : EnttecMessage :=
  { label := EnttecProDriver.send_rdm_label package, data := serialize_rdm package }

/-- Embedding of `EnttecProDriver::send_custom_package`: prepend the start
code to the payload and wrap it in a label-6 Enttec message; the result is the
byte sequence written to the serial port. -/
def EnttecProDriver.send_custom_package (start_code : Nat) (package : List Nat) :
    Option (List Nat) :=
  EnttecMessage.serialize { label := SEND_DMX_PACKET_REQUEST, data := start_code :: package }

/-- Embedding of `EnttecProDriver::send_dmx_package`: `send_custom_package`
with the DMX null start code. -/
def EnttecProDriver.send_dmx_package (package : List Nat) : Option (List Nat) :=
  EnttecProDriver.send_custom_package DMX_NULL_START package

/-! ## FTDI (generic-UART) driver -/

/-- Embedding of `FtdiDriver::check_timeout` (times in microseconds): a zero
request bypasses the floor and returns 0; a nonzero request below the latency
timer is raised to the latency timer; otherwise the request is returned. -/
def FtdiDriver.check_timeout (latency_timer_us requested_timeout_us : Nat) : Nat :=
  if requested_timeout_us = 0 then 0
  else if requested_timeout_us < latency_timer_us then latency_timer_us
  else requested_timeout_us

/-- One outcome of `serial_port.read(&mut break_byte)` inside
`FtdiDriver::read_frames`: either `bytes_read` bytes were read (when nonzero,
`byte` is the byte now in the one-byte buffer), or the read failed. -/
inductive FtdiReadEvent where
  | ok (bytes_read : Nat) (byte : Nat)
  | ioError
deriving DecidableEq, Repr

/-- Result of the `FtdiDriver::read_frames` polling loop: delegated to
`read_frames_no_break` after seeing a break byte, returned `TimeoutError`,
propagated a read error, or ran out of fuel. -/
inductive FtdiReadFramesResult where
  | delegated
  | timeoutErr
  | ioErr
  | stuck
deriving DecidableEq, Repr

/-- Embedding of the polling loop of `FtdiDriver::read_frames`.  `elapsed k`
is the monotone-clock reading at the k-th loop-condition check and `reads k`
the outcome of the k-th serial read; `fuel` bounds the number of iterations.
Returns the loop result together with the number of serial reads performed.
The loop body runs only while `elapsed < actual_timeout`; a read of a single
zero byte is the break heuristic and delegates to the no-break reader. -/
def FtdiDriver.read_frames_loop (actual_timeout : Nat) (elapsed : Nat → Nat)
    (reads : Nat → FtdiReadEvent) : Nat → Nat → FtdiReadFramesResult × Nat
  | 0, k => (.stuck, k)
  | fuel + 1, k =>
    if elapsed k < actual_timeout then
      match reads k with
      | .ioError => (.ioErr, k + 1)
      | .ok n b =>
        if n ≠ 0 ∧ b = 0 then (.delegated, k + 1)
        else FtdiDriver.read_frames_loop actual_timeout elapsed reads fuel (k + 1)
    else (.timeoutErr, k)

/-- Embedding of `FtdiDriver::read_frames`: apply `check_timeout` to the
requested timeout, then run the polling loop starting with zero reads
performed. -/
def FtdiDriver.read_frames (latency_timer_us timeout_us : Nat) (elapsed : Nat → Nat)
    (reads : Nat → FtdiReadEvent) (fuel : Nat) : FtdiReadFramesResult × Nat :=
  FtdiDriver.read_frames_loop (FtdiDriver.check_timeout latency_timer_us timeout_us)
    elapsed reads fuel 0

/-! ## RP2040 (embedded-UART) driver -/

/-- Embedding of `Rp2040DriverError`. -/
inductive Rp2040DriverError where
  | parity
  | framing
  | overflow
deriving DecidableEq, Repr

/-- Embedding of `dmx_rdm::dmx_uart_driver::DmxUartDriverError` specialised to
the RP2040 driver error. -/
inductive DmxUartDriverError where
  | timeoutError
  | driverError (e : Rp2040DriverError)
deriving DecidableEq, Repr

/-- Outcome of a UART driver operation run on a finite trace: a returned
value, a returned typed error, or a loop still waiting when the trace ends. -/
inductive UartExec (α : Type) where
  | ok (value : α)
  | err (e : DmxUartDriverError)
  | stuck
deriving DecidableEq, Repr

/-- One outcome of `uart.read_raw` inside `Rp2040Driver::read_frames_no_break`,
together with the state of the countdown timer when the read would block:
a successful read of `bytes_read` bytes, a hardware break / overrun / parity /
framing error, or `WouldBlock` with the countdown still pending or expired. -/
inductive UartReadEvent where
  | ok (bytes_read : Nat)
  | brk
  | overrun
  | parity
  | framing
  | wouldBlockPending
  | wouldBlockExpired
deriving DecidableEq, Repr

/-- Embedding of `Rp2040Driver::read_frames_no_break` on a trace of UART read
outcomes.  The loop runs while `head < buffer_size`; a successful read adds
its byte count to `head`; a break error continues the loop when `head == 0`
and otherwise breaks out (returning `Ok(head)` after cancelling the
countdown); overrun/parity/framing errors surface as typed driver errors; a
blocked read with the countdown expired is a timeout when `head == 0` and
`Ok(head)` otherwise. -/
def Rp2040Driver.read_frames_no_break (buffer_size : Nat) :
    Nat → List UartReadEvent → UartExec Nat
  | head, [] => if buffer_size ≤ head then .ok head else .stuck
  | head, ev :: rest =>
    if buffer_size ≤ head then .ok head
    else
      match ev with
      | .ok n => Rp2040Driver.read_frames_no_break buffer_size (head + n) rest
      | .brk =>
        if head = 0 then Rp2040Driver.read_frames_no_break buffer_size head rest
        else .ok head
      | .overrun => .err (.driverError .overflow)
      | .parity => .err (.driverError .parity)
      | .framing => .err (.driverError .framing)
      | .wouldBlockExpired =>
        if head = 0 then .err .timeoutError else .ok head
      | .wouldBlockPending => Rp2040Driver.read_frames_no_break buffer_size head rest

/-- State of the UART transmit side, recording the bytes handed to the
hardware. -/
structure UartTxState where
  written : List Nat
deriving DecidableEq, Repr

/-- Embedding of `Rp2040Driver::write_frames_no_break`: `write_full_blocking`
hands every byte of the buffer to the UART (no error path), the driver then
busy-waits until the UART drains and returns `Ok(buffer.len())`. -/
def Rp2040Driver.write_frames_no_break (st : UartTxState) (buffer : List Nat) :
    UartTxState × UartExec Nat :=
  ({ written := st.written ++ buffer }, .ok buffer.length)

/-! ## Helper lemmas -/

/-- Reading a list at the index of its second-to-build element: appending one
element and reading at the original length yields that element. -/
theorem getD_append_last (l : List Nat) (a d n : Nat) (h : n = l.length) :
    (l ++ [a]).getD n d = a := by
  subst h
  simp

/-- Taking exactly the length of the left part of an append returns the left
part. -/
theorem take_append_self (l t : List Nat) : (l ++ t).take l.length = l := by
  simp

/-! ## Claim theorems -/

/-- C1: for every `EnttecMessage` with label in 0–255 and payload of length
0–600 (of bytes), deserializing the result of serializing the message yields
exactly the original message. -/
theorem serialize_deserialize_roundtrip (m : EnttecMessage)
    (hlabel : m.label ≤ 255) (hbytes : ∀ b ∈ m.data, b ≤ 255)
    (hlen : m.data.length ≤ 600) :
    (EnttecMessage.serialize m).bind EnttecMessage.deserialize = some m := by
  obtain ⟨label, data⟩ := m
  have hlen' : data.length ≤ 600 := hlen
  have h65536 : data.length % 65536 = data.length := Nat.mod_eq_of_lt (by omega)
  have hser : EnttecMessage.serialize ⟨label, data⟩ =
      some (0x7E :: label :: (data.length % 256) :: (data.length / 256) ::
        (data ++ [0xE7])) := by
    simp only [EnttecMessage.serialize, MAX_DATA_LENGTH, START_OF_MESSAGE_DELIMITER,
      END_OF_MESSAGE_DELIMITER]
    rw [if_neg (by omega)]
    simp [h65536]
  rw [hser]
  show EnttecMessage.deserialize
    (0x7E :: label :: (data.length % 256) :: (data.length / 256) ::
      (data ++ [0xE7])) = some ⟨label, data⟩
  have hdecl : declaredLength
      (0x7E :: label :: (data.length % 256) :: (data.length / 256) ::
        (data ++ [0xE7])) = data.length := by
    show data.length % 256 + 256 * (data.length / 256) = data.length
    exact Nat.mod_add_div _ _
  simp only [EnttecMessage.deserialize]
  rw [if_neg]
  · rw [if_neg]
    · rw [if_neg]
      · rw [hdecl]
        have hd4 : List.drop 4
            (0x7E :: label :: (data.length % 256) :: (data.length / 256) ::
              (data ++ [0xE7])) = data ++ [0xE7] := rfl
        have hg1 : List.getD
            (0x7E :: label :: (data.length % 256) :: (data.length / 256) ::
              (data ++ [0xE7])) 1 0 = label := rfl
        rw [hd4, hg1, take_append_self]
      · rw [hdecl]
        simp only [MAX_DATA_LENGTH, MIN_PACKAGE_SIZE, List.length_cons,
          List.length_append, List.length_singleton, List.length_nil]
        push_neg
        constructor
        · omega
        · omega
    · push_neg
      refine ⟨rfl, ?_⟩
      show ((0x7E :: label :: (data.length % 256) :: (data.length / 256) :: data)
        ++ [0xE7]).getD _ 0 = END_OF_MESSAGE_DELIMITER
      refine getD_append_last _ _ _ _ ?_
      simp only [List.length_cons, List.length_append, List.length_singleton,
        List.length_nil]
      omega
  · simp only [MIN_PACKAGE_SIZE, List.length_cons, List.length_append,
      List.length_singleton, List.length_nil]
    omega

/-- Witness for C1 at the concrete message with label 6 and payload
`[0, 1, 2]`. -/
theorem serialize_deserialize_roundtrip_witness :
    (⟨6, [0, 1, 2]⟩ : EnttecMessage).label ≤ 255 ∧
    (∀ b ∈ (⟨6, [0, 1, 2]⟩ : EnttecMessage).data, b ≤ 255) ∧
    (⟨6, [0, 1, 2]⟩ : EnttecMessage).data.length ≤ 600 ∧
    (EnttecMessage.serialize ⟨6, [0, 1, 2]⟩).bind EnttecMessage.deserialize =
      some ⟨6, [0, 1, 2]⟩ :=
  ⟨by decide, by decide, by decide,
    serialize_deserialize_roundtrip ⟨6, [0, 1, 2]⟩ (by decide) (by decide) (by decide)⟩

/-- C2: `deserialize` returns `none` for every buffer that is shorter than 5
bytes, does not start with `0x7E`, does not end with `0xE7`, declares a length
above 600, or whose actual length differs from the declared length plus 5. -/
theorem deserialize_rejects (data : List Nat)
    (h : data.length < MIN_PACKAGE_SIZE ∨
      data.getD 0 0 ≠ START_OF_MESSAGE_DELIMITER ∨
      data.getD (data.length - 1) 0 ≠ END_OF_MESSAGE_DELIMITER ∨
      declaredLength data > MAX_DATA_LENGTH ∨
      data.length ≠ MIN_PACKAGE_SIZE + declaredLength data) :
    EnttecMessage.deserialize data = none := by
  simp only [EnttecMessage.deserialize]
  split_ifs with h1 h2 h3
  · rfl
  · rfl
  · rfl
  · tauto

/-- Witness for C2: a buffer with a wrong end delimiter (and one of each other
rejection class checked directly on the embedding). -/
theorem deserialize_rejects_witness :
    (([0x7E, 5, 0, 0, 0xFF] : List Nat).getD (([0x7E, 5, 0, 0, 0xFF] : List Nat).length - 1) 0
        ≠ END_OF_MESSAGE_DELIMITER) ∧
      EnttecMessage.deserialize [0x7E, 5, 0, 0, 0xFF] = none :=
  ⟨by decide,
    deserialize_rejects [0x7E, 5, 0, 0, 0xFF] (Or.inr (Or.inr (Or.inl (by decide))))⟩

/-- C3 (code bug): the wire bytes `7E 05 00 00 E7` deserialize to a valid
label-5 package with an empty payload, and on that package both `receive_rdm`
and `receive_rdm_discovery_response` panic (the Rust slice `package.data[1..]`
on an empty `Vec` aborts), contradicting the claim that every fault on those
paths surfaces as a typed error. -/
theorem receive_rdm_panics_on_empty_label5 :
    EnttecMessage.deserialize [0x7E, 5, 0, 0, 0xE7] =
      some { label := RECEIVED_DMX_PACKET, data := [] } ∧
    EnttecProDriver.receive_rdm (fun _ => none)
      [Except.ok { label := RECEIVED_DMX_PACKET, data := [] }] = .panicked ∧
    EnttecProDriver.receive_rdm_discovery_response (fun _ => none)
      [Except.ok { label := RECEIVED_DMX_PACKET, data := [] }] = .panicked := by
  refine ⟨by decide, ?_, ?_⟩ <;> rfl

/-- C4: discovery-response semantics — a transport timeout from
`read_package` yields `Ok(NoDevice)`, a label-5 package whose post-start-code
payload parses as a single UID yields `Ok(Found uid)`, and a parse failure
yields `Ok(Collision)`; none of the three propagates a hard error. -/
theorem receive_rdm_discovery_response_semantics
    (parse : List Nat → Option Nat)
    (trace : List (Except EnttecProError EnttecMessage))
    (msg : EnttecMessage) (uid : Nat)
    (hlabel : msg.label = RECEIVED_DMX_PACKET) (hlen : 1 ≤ msg.data.length) :
    EnttecProDriver.receive_rdm_discovery_response parse
        (Except.error .ftdiTimeout :: trace) = .ok .noDevice ∧
    (parse (msg.data.drop 1) = some uid →
      EnttecProDriver.receive_rdm_discovery_response parse
        (Except.ok msg :: trace) = .ok (.found uid)) ∧
    (parse (msg.data.drop 1) = none →
      EnttecProDriver.receive_rdm_discovery_response parse
        (Except.ok msg :: trace) = .ok .collision) := by
  refine ⟨rfl, fun hp => ?_, fun hp => ?_⟩ <;>
  · rw [List.drop_one] at hp
    simp [EnttecProDriver.receive_rdm_discovery_response, hlabel, hlen, hp]

/-- Witness for C4: concrete timeout, found, and collision scenarios on a
label-5 package with payload `[0, 1, 2]`. -/
theorem receive_rdm_discovery_response_semantics_witness :
    EnttecProDriver.receive_rdm_discovery_response (fun _ => some 7)
        [Except.error .ftdiTimeout] = .ok .noDevice ∧
    EnttecProDriver.receive_rdm_discovery_response (fun _ => some 7)
        [Except.ok ⟨5, [0, 1, 2]⟩] = .ok (.found 7) ∧
    EnttecProDriver.receive_rdm_discovery_response (fun _ => none)
        [Except.ok ⟨5, [0, 1, 2]⟩] = .ok .collision :=
  ⟨(receive_rdm_discovery_response_semantics (fun _ => some 7) [] ⟨5, [0, 1, 2]⟩ 7
      rfl (by decide)).1,
    (receive_rdm_discovery_response_semantics (fun _ => some 7) [] ⟨5, [0, 1, 2]⟩ 7
      rfl (by decide)).2.1 rfl,
    (receive_rdm_discovery_response_semantics (fun _ => none) [] ⟨5, [0, 1, 2]⟩ 7
      rfl (by decide)).2.2 rfl⟩

/-- C5: `check_timeout` substitutes the latency-timer floor for any nonzero
requested timeout below it, and a requested timeout of exactly zero bypasses
the floor and stays zero. -/
theorem check_timeout_floor (latency_timer_us requested_timeout_us : Nat)
    (hne : requested_timeout_us ≠ 0)
    (hlt : requested_timeout_us < latency_timer_us) :
    FtdiDriver.check_timeout latency_timer_us requested_timeout_us = latency_timer_us ∧
      FtdiDriver.check_timeout latency_timer_us 0 = 0 := by
  constructor
  · simp [FtdiDriver.check_timeout, hne, hlt]
  · simp [FtdiDriver.check_timeout]

/-- Witness for C5: a 100 µs request against a 2000 µs latency timer is raised
to 2000 µs, while a zero request stays zero. -/
theorem check_timeout_floor_witness :
    FtdiDriver.check_timeout 2000 100 = 2000 ∧ FtdiDriver.check_timeout 2000 0 = 0 :=
  check_timeout_floor 2000 100 (by decide) (by decide)

/-- C6: `send_rdm` wraps the serialized RDM payload with label 11 exactly for
requests whose `parameter_id` is `0x0001`, and with label 7 for every other
request and for non-request packages. -/
theorem send_rdm_label_selection (serialize_rdm : RdmData → List Nat) (pid : Nat) :
    (pid = 0x0001 →
      (EnttecProDriver.send_rdm_message serialize_rdm (.request pid)).label =
        SEND_RDM_DISCOVERY_REQUEST) ∧
    (pid ≠ 0x0001 →
      (EnttecProDriver.send_rdm_message serialize_rdm (.request pid)).label =
        SEND_RDM_PACKET_REQUEST) ∧
    (EnttecProDriver.send_rdm_message serialize_rdm .response).label =
      SEND_RDM_PACKET_REQUEST := by
  refine ⟨fun h => ?_, fun h => ?_, ?_⟩
  · simp [EnttecProDriver.send_rdm_message, EnttecProDriver.send_rdm_label, h]
  · simp [EnttecProDriver.send_rdm_message, EnttecProDriver.send_rdm_label, h]
  · simp [EnttecProDriver.send_rdm_message, EnttecProDriver.send_rdm_label]

/-- Witness for C6 at parameter IDs 1 and 2. -/
theorem send_rdm_label_selection_witness :
    (EnttecProDriver.send_rdm_message (fun _ => []) (.request 0x0001)).label =
        SEND_RDM_DISCOVERY_REQUEST ∧
      (EnttecProDriver.send_rdm_message (fun _ => []) (.request 2)).label =
        SEND_RDM_PACKET_REQUEST :=
  ⟨(send_rdm_label_selection (fun _ => []) 0x0001).1 rfl,
    (send_rdm_label_selection (fun _ => []) 2).2.1 (by decide)⟩

/-- C7: sending the DMX payload `[0x00, 0x01, 0x02]` writes exactly the byte
sequence `7E 06 04 00 00 00 01 02 E7` to the serial port. -/
theorem send_dmx_package_wire_bytes :
    EnttecProDriver.send_dmx_package [0x00, 0x01, 0x02] =
      some [0x7E, 0x06, 0x04, 0x00, 0x00, 0x00, 0x01, 0x02, 0xE7] := by
  decide

/-- C8: in the RP2040 `read_frames_no_break` loop, a hardware break observed
with zero bytes collected makes the loop continue on the rest of the trace,
while a break observed after at least one byte has been collected ends the
frame with `Ok(head)`. -/
theorem rp2040_break_handling (buffer_size head : Nat)
    (trace : List UartReadEvent)
    (h0 : 0 < buffer_size) (h1 : 1 ≤ head) (h2 : head < buffer_size) :
    Rp2040Driver.read_frames_no_break buffer_size 0 (.brk :: trace) =
      Rp2040Driver.read_frames_no_break buffer_size 0 trace ∧
    Rp2040Driver.read_frames_no_break buffer_size head (.brk :: trace) = .ok head := by
  constructor
  · have hns : ¬ buffer_size ≤ 0 := by omega
    simp [Rp2040Driver.read_frames_no_break, hns]
  · have hns : ¬ buffer_size ≤ head := by omega
    have hh : head ≠ 0 := by omega
    simp [Rp2040Driver.read_frames_no_break, hns, hh]

/-- Witness for C8 with a 3-byte buffer: a break at zero collected bytes
continues (here into a 2-byte read and an expired wait), a break after 2
collected bytes returns `Ok 2`. -/
theorem rp2040_break_handling_witness :
    Rp2040Driver.read_frames_no_break 3 0 [.brk, .ok 2, .wouldBlockExpired] =
      Rp2040Driver.read_frames_no_break 3 0 [.ok 2, .wouldBlockExpired] ∧
    Rp2040Driver.read_frames_no_break 3 2 [.brk, .ok 2, .wouldBlockExpired] = .ok 2 :=
  rp2040_break_handling 3 2 [.ok 2, .wouldBlockExpired] (by decide) (by decide) (by decide)

/-- C9: an FTDI `read_frames` call with a requested timeout of exactly zero
returns `TimeoutError` at once with zero serial reads performed, for every
latency timer, clock behaviour, and pending read data. -/
theorem read_frames_zero_timeout (latency_timer_us fuel : Nat)
    (elapsed : Nat → Nat) (reads : Nat → FtdiReadEvent) (hfuel : 1 ≤ fuel) :
    FtdiDriver.read_frames latency_timer_us 0 elapsed reads fuel = (.timeoutErr, 0) := by
  obtain ⟨f, rfl⟩ : ∃ f, fuel = f + 1 := ⟨fuel - 1, by omega⟩
  simp [FtdiDriver.read_frames, FtdiDriver.check_timeout, FtdiDriver.read_frames_loop]

/-- Witness for C9: zero-timeout read with a break byte already pending still
times out immediately without reading. -/
theorem read_frames_zero_timeout_witness :
    FtdiDriver.read_frames 2000 0 (fun _ => 5) (fun _ => .ok 1 0) 3 = (.timeoutErr, 0) :=
  read_frames_zero_timeout 2000 3 (fun _ => 5) (fun _ => .ok 1 0) (by decide)

/-- C10: the RP2040 `write_frames_no_break` never returns an error — for
every UART state and input buffer it hands the whole buffer to the hardware
and returns `Ok` with exactly the buffer's length. -/
theorem rp2040_write_frames_no_break_total (st : UartTxState) (buffer : List Nat) :
    Rp2040Driver.write_frames_no_break st buffer =
      ({ written := st.written ++ buffer }, .ok buffer.length) := rfl

end DmxDrivers
